import Mathlib

/-!
Formal model of the RocketChat realtime API operation catalog
(rocketchat_async/methods.py): the correlation id allocator, the wire
message builders, the response parsers, and the subscription event
adapters.  Python dicts are modelled as ordered association lists,
Python exceptions as `Option.none`, the shared id counter as explicitly
threaded state, and the hashlib primitives (MD5, SHA-256) as executable
Lean functions over byte lists.
-/

/-- JSON-like values: the shape of wire messages, raw replies and push
events.  Objects are ordered association lists, as Python dicts are. -/
inductive Json where
  | null : Json
  | bool (b : Bool) : Json
  | num (n : Int) : Json
  | str (s : String) : Json
  | arr (xs : List Json) : Json
  | obj (fields : List (String × Json)) : Json
  deriving Repr

/-- Python dict lookup on an ordered association list: the value at the
first matching key. -/
def dictLookup : List (String × Json) → String → Option Json
  | [], _ => none
  | kv :: rest, k => if kv.1 = k then some kv.2 else dictLookup rest k

/-- Python dict assignment `d[k] = v`: replace the value at an existing
key in place, else append the new pair at the end. -/
def dictSet : List (String × Json) → String → Json → List (String × Json)
  | [], k, v => [(k, v)]
  | kv :: rest, k, v => if kv.1 = k then (k, v) :: rest else kv :: dictSet rest k v

/-- Python subscript `j[k]` with a string key: defined on dicts only;
any other shape raises, modelled as `none`. -/
def jGet (j : Json) (k : String) : Option Json :=
  match j with
  | .obj kvs => dictLookup kvs k
  | _ => none

/-- Python subscript `j[i]` with a nonnegative index: defined on lists
that are long enough; anything else raises, modelled as `none`. -/
def jIdx (j : Json) (i : Nat) : Option Json :=
  match j with
  | .arr xs => xs[i]?
  | _ => none

/-- Python `==` between a value and a string literal: true exactly on
the equal string, false on every other value (no error). -/
def isStrEq (j : Json) (s : String) : Bool :=
  match j with
  | .str t => t == s
  | _ => false

/-- Python iteration `for r in j`: lists yield their elements, dicts
their keys, strings their characters; other values raise. -/
def pyIterate (j : Json) : Option (List Json) :=
  match j with
  | .arr xs => some xs
  | .obj kvs => some (kvs.map (fun kv => .str kv.1))
  | .str s => some (s.data.map (fun c => .str (String.mk [c])))
  | _ => none

mutual
/-- All string atoms occurring anywhere in a value: object keys and
string leaves, in traversal order. -/
def jsonStrings : Json → List String
  | .null => []
  | .bool _ => []
  | .num _ => []
  | .str s => [s]
  | .arr xs => jsonStringsArr xs
  | .obj kvs => jsonStringsObj kvs

/-- String atoms of every element of a list of values. -/
def jsonStringsArr : List Json → List String
  | [] => []
  | x :: xs => jsonStrings x ++ jsonStringsArr xs

/-- String atoms of an object field list: each key, then the atoms of
its value. -/
def jsonStringsObj : List (String × Json) → List String
  | [] => []
  | (k, v) :: kvs => k :: (jsonStrings v ++ jsonStringsObj kvs)
end

/-- String atoms of an optional value, empty when the build raised. -/
def jsonStringsOpt : Option Json → List String
  | none => []
  | some j => jsonStrings j

/-- Python string slice `s[:n]`: the first `n` characters. -/
def pyTake (s : String) (n : Nat) : String := String.mk (s.data.take n)

/-! ### Byte-level primitives shared by the hashlib models -/

def M32 : Nat := 4294967296

/-- Modular addition of 32-bit words. -/
def add32 (a b : Nat) : Nat := (a + b) % M32

/-- Left rotation of a word below `2 ^ 32`. -/
def rotl32 (k a : Nat) : Nat := ((a <<< k) ||| (a >>> (32 - k))) % M32

/-- Right rotation of a word below `2 ^ 32`. -/
def rotr32 (k a : Nat) : Nat := ((a >>> k) ||| (a <<< (32 - k))) % M32

/-- UTF-8 encoding of one character, as Python `str.encode` emits it. -/
def encodeChar (c : Char) : List Nat :=
  let n := c.toNat
  if n < 128 then [n]
  else if n < 2048 then [192 + n / 64, 128 + n % 64]
  else if n < 65536 then [224 + n / 4096, 128 + (n / 64) % 64, 128 + n % 64]
  else [240 + n / 262144, 128 + (n / 4096) % 64, 128 + (n / 64) % 64, 128 + n % 64]

/-- UTF-8 bytes of a string, the model of Python `str.encode()`. -/
def strBytes (s : String) : List Nat := (s.data.map encodeChar).flatten

/-- The sixteen lowercase hexadecimal digit characters. -/
def hexChars : List Char := "0123456789abcdef".data

/-- The hexadecimal character of a nibble. -/
def hexDigit (n : Nat) : Char := hexChars.getD (n % 16) '0'

/-- Two hexadecimal characters of one byte, high nibble first. -/
def byteHex (b : Nat) : List Char := [hexDigit (b / 16), hexDigit b]

/-- Lowercase hex rendering of a byte list, the model of `hexdigest()`. -/
def bytesToHexStr (bs : List Nat) : String := String.mk ((bs.map byteHex).flatten)

/-- Eight little-endian bytes of a bit length (MD5 padding). -/
def lenBytesLE (n : Nat) : List Nat := (List.range 8).map (fun i => (n >>> (8 * i)) % 256)

/-- Eight big-endian bytes of a bit length (SHA-256 padding). -/
def lenBytesBE (n : Nat) : List Nat := (List.range 8).map (fun i => (n >>> (8 * (7 - i))) % 256)

/-- Merkle-Damgard padding with a little-endian length field. -/
def mdPadLE (bs : List Nat) : List Nat :=
  bs ++ [128] ++ List.replicate ((119 - (bs.length % 64)) % 64) 0 ++ lenBytesLE (8 * bs.length)

/-- Merkle-Damgard padding with a big-endian length field. -/
def mdPadBE (bs : List Nat) : List Nat :=
  bs ++ [128] ++ List.replicate ((119 - (bs.length % 64)) % 64) 0 ++ lenBytesBE (8 * bs.length)

/-- Split a byte list into 64-byte chunks; the first argument is fuel,
always instantiated with the length of the list. -/
def chunks64 : Nat → List Nat → List (List Nat)
  | 0, _ => []
  | _, [] => []
  | n + 1, l => l.take 64 :: chunks64 n (l.drop 64)

/-- A 32-bit word from four little-endian bytes. -/
def wordLE (b : List Nat) : Nat :=
  b.getD 0 0 + 256 * b.getD 1 0 + 65536 * b.getD 2 0 + 16777216 * b.getD 3 0

/-- A 32-bit word from four big-endian bytes. -/
def wordBE (b : List Nat) : Nat :=
  16777216 * b.getD 0 0 + 65536 * b.getD 1 0 + 256 * b.getD 2 0 + b.getD 3 0

/-- The sixteen little-endian words of a 64-byte chunk. -/
def chunkWordsLE (chunk : List Nat) : List Nat :=
  (List.range 16).map (fun i => wordLE ((chunk.drop (4 * i)).take 4))

/-- The sixteen big-endian words of a 64-byte chunk. -/
def chunkWordsBE (chunk : List Nat) : List Nat :=
  (List.range 16).map (fun i => wordBE ((chunk.drop (4 * i)).take 4))

/-- Four little-endian bytes of a 32-bit word. -/
def wordBytesLE (w : Nat) : List Nat :=
  [w % 256, (w >>> 8) % 256, (w >>> 16) % 256, (w >>> 24) % 256]

/-- Four big-endian bytes of a 32-bit word. -/
def wordBytesBE (w : Nat) : List Nat :=
  [(w >>> 24) % 256, (w >>> 16) % 256, (w >>> 8) % 256, w % 256]

/-! ### MD5 (model of hashlib.md5) -/

/-- The four MD5 chaining words. -/
structure MD5State where
  a : Nat
  b : Nat
  c : Nat
  d : Nat

/-- The 64 MD5 round constants. -/
def md5K : List Nat :=
  [3614090360, 3905402710, 606105819, 3250441966, 4118548399, 1200080426, 2821735955, 4249261313,
   1770035416, 2336552879, 4294925233, 2304563134, 1804603682, 4254626195, 2792965006, 1236535329,
   4129170786, 3225465664, 643717713, 3921069994, 3593408605, 38016083, 3634488961, 3889429448,
   568446438, 3275163606, 4107603335, 1163531501, 2850285829, 4243563512, 1735328473, 2368359562,
   4294588738, 2272392833, 1839030562, 4259657740, 2763975236, 1272893353, 4139469664, 3200236656,
   681279174, 3936430074, 3572445317, 76029189, 3654602809, 3873151461, 530742520, 3299628645,
   4096336452, 1126891415, 2878612391, 4237533241, 1700485571, 2399980690, 4293915773, 2240044497,
   1873313359, 4264355552, 2734768916, 1309151649, 4149444226, 3174756917, 718787259, 3951481745]

/-- The 64 MD5 per-round rotation amounts. -/
def md5Shifts : List Nat :=
  (List.replicate 4 [7, 12, 17, 22]).flatten ++ (List.replicate 4 [5, 9, 14, 20]).flatten ++
  (List.replicate 4 [4, 11, 16, 23]).flatten ++ (List.replicate 4 [6, 10, 15, 21]).flatten

/-- The MD5 round function for round `i`. -/
def md5F (i b c d : Nat) : Nat :=
  if i < 16 then (b &&& c) ||| ((b ^^^ 4294967295) &&& d)
  else if i < 32 then (d &&& b) ||| ((d ^^^ 4294967295) &&& c)
  else if i < 48 then b ^^^ c ^^^ d
  else c ^^^ (b ||| (d ^^^ 4294967295))

/-- The MD5 message word index for round `i`. -/
def md5G (i : Nat) : Nat :=
  if i < 16 then i
  else if i < 32 then (5 * i + 1) % 16
  else if i < 48 then (3 * i + 5) % 16
  else (7 * i) % 16

/-- One MD5 round. -/
def md5Step (ws : List Nat) (st : MD5State) (i : Nat) : MD5State :=
  let f := (md5F i st.b st.c st.d + st.a + md5K.getD i 0 + ws.getD (md5G i) 0) % M32
  ⟨st.d, add32 st.b (rotl32 (md5Shifts.getD i 0) f), st.b, st.c⟩

/-- MD5 compression of one 64-byte chunk. -/
def md5Chunk (st : MD5State) (chunk : List Nat) : MD5State :=
  let ws := chunkWordsLE chunk
  let r := (List.range 64).foldl (md5Step ws) st
  ⟨add32 st.a r.a, add32 st.b r.b, add32 st.c r.c, add32 st.d r.d⟩

/-- The 16 MD5 digest bytes of a byte list. -/
def md5Bytes (bs : List Nat) : List Nat :=
  let padded := mdPadLE bs
  let st := (chunks64 padded.length padded).foldl md5Chunk
    ⟨1732584193, 4023233417, 2562383102, 271733878⟩
  ([st.a, st.b, st.c, st.d].map wordBytesLE).flatten

/-- Model of Python `hashlib.md5(s.encode()).hexdigest()`. -/
def md5Hex (s : String) : String := bytesToHexStr (md5Bytes (strBytes s))

/-! ### SHA-256 (model of hashlib.sha256) -/

/-- The eight SHA-256 chaining words. -/
structure SHA256State where
  a : Nat
  b : Nat
  c : Nat
  d : Nat
  e : Nat
  f : Nat
  g : Nat
  h : Nat

/-- The 64 SHA-256 round constants. -/
def sha256K : List Nat :=
  [1116352408, 1899447441, 3049323471, 3921009573, 961987163, 1508970993, 2453635748, 2870763221,
   3624381080, 310598401, 607225278, 1426881987, 1925078388, 2162078206, 2614888103, 3248222580,
   3835390401, 4022224774, 264347078, 604807628, 770255983, 1249150122, 1555081692, 1996064986,
   2554220882, 2821834349, 2952996808, 3210313671, 3336571891, 3584528711, 113926993, 338241895,
   666307205, 773529912, 1294757372, 1396182291, 1695183700, 1986661051, 2177026350, 2456956037,
   2730485921, 2820302411, 3259730800, 3345764771, 3516065817, 3600352804, 4094571909, 275423344,
   430227734, 506948616, 659060556, 883997877, 958139571, 1322822218, 1537002063, 1747873779,
   1955562222, 2024104815, 2227730452, 2361852424, 2428436474, 2756734187, 3204031479, 3329325298]

/-- SHA-256 message schedule sigma functions. -/
def sha256s0 (w : Nat) : Nat := rotr32 7 w ^^^ rotr32 18 w ^^^ (w >>> 3)

def sha256s1 (w : Nat) : Nat := rotr32 17 w ^^^ rotr32 19 w ^^^ (w >>> 10)

/-- SHA-256 compression Sigma functions. -/
def sha256S0 (w : Nat) : Nat := rotr32 2 w ^^^ rotr32 13 w ^^^ rotr32 22 w

def sha256S1 (w : Nat) : Nat := rotr32 6 w ^^^ rotr32 11 w ^^^ rotr32 25 w

/-- Extension of the sixteen chunk words to the 64 schedule words. -/
def sha256Schedule (w16 : List Nat) : List Nat :=
  (List.range 48).foldl (fun w _ =>
    let n := w.length
    w ++ [(w.getD (n - 16) 0 + sha256s0 (w.getD (n - 15) 0) +
           w.getD (n - 7) 0 + sha256s1 (w.getD (n - 2) 0)) % M32]) w16

/-- One SHA-256 round. -/
def sha256Step (ws : List Nat) (st : SHA256State) (i : Nat) : SHA256State :=
  let ch := (st.e &&& st.f) ^^^ ((st.e ^^^ 4294967295) &&& st.g)
  let maj := (st.a &&& st.b) ^^^ (st.a &&& st.c) ^^^ (st.b &&& st.c)
  let t1 := (st.h + sha256S1 st.e + ch + sha256K.getD i 0 + ws.getD i 0) % M32
  let t2 := (sha256S0 st.a + maj) % M32
  ⟨add32 t1 t2, st.a, st.b, st.c, add32 st.d t1, st.e, st.f, st.g⟩

/-- SHA-256 compression of one 64-byte chunk. -/
def sha256Chunk (st : SHA256State) (chunk : List Nat) : SHA256State :=
  let ws := sha256Schedule (chunkWordsBE chunk)
  let r := (List.range 64).foldl (sha256Step ws) st
  ⟨add32 st.a r.a, add32 st.b r.b, add32 st.c r.c, add32 st.d r.d,
   add32 st.e r.e, add32 st.f r.f, add32 st.g r.g, add32 st.h r.h⟩

/-- The 32 SHA-256 digest bytes of a byte list. -/
def sha256Bytes (bs : List Nat) : List Nat :=
  let padded := mdPadBE bs
  let st := (chunks64 padded.length padded).foldl sha256Chunk
    ⟨1779033703, 3144134277, 1013904242, 2773480762, 1359893119, 2600822924, 528734635, 1541459225⟩
  ([st.a, st.b, st.c, st.d, st.e, st.f, st.g, st.h].map wordBytesBE).flatten

/-- Model of Python `hashlib.sha256(s.encode()).hexdigest()`. -/
def sha256Hex (s : String) : String := bytesToHexStr (sha256Bytes (strBytes s))

/-! ### Decimal formatting (model of Python f-string on an int) -/

/-- Decimal digits of a natural number, most significant first. -/
def natDigits (n : Nat) : List Nat :=
  if _h : n < 10 then [n]
  else natDigits (n / 10) ++ [n % 10]
  termination_by n
  decreasing_by exact Nat.div_lt_self (by omega) (by omega)

/-- The character of a single decimal digit. -/
def digitChar10 (d : Nat) : Char := Char.ofNat (48 + d % 10)

/-- Python string formatting of a nonnegative int: its decimal digits. -/
def pyIntStr (n : Nat) : String := String.mk ((natDigits n).map digitChar10)

/-- Reading the decimal digit characters of a string back into a
number, the inverse direction of the formatter. -/
def parseDigitChars (cs : List Char) : Nat :=
  cs.foldl (fun a c => a * 10 + (c.toNat - 48)) 0

/-! ### The operation catalog -/

/-- The correlation id allocator: increments the shared counter and
returns its decimal rendering.  The counter is threaded explicitly;
the process starts with the counter at 0. -/
def RealtimeRequest.getNewId (maxId : Nat) : Nat × String :=
  (maxId + 1, pyIntStr (maxId + 1))

/-- The values returned by `n` consecutive allocator invocations
starting from counter state `m`, in order. -/
def RealtimeRequest.allocSeq : Nat → Nat → List String
  | _, 0 => []
  | m, n + 1 =>
    (RealtimeRequest.getNewId m).2 :: RealtimeRequest.allocSeq (RealtimeRequest.getNewId m).1 n

/-- One interaction handed to the external Dispatcher: the built wire
message, and the correlation id passed alongside it when the caller
awaits the matching reply (`none` means fire-and-forget). -/
structure DispatcherCall where
  message : Json
  waitId : Option String

/-- The Login request message builder.  A single argument is a resume
token; otherwise the first two arguments are username and password,
the password sent only as its SHA-256 hex digest.  An empty argument
list raises on the missing subscripts, modelled as `none`. -/
def Login.getRequestMsg (msgId : String) (args : List String) : Option Json :=
  if args.length == 1 then
    some (.obj [("msg", .str "method"), ("method", .str "login"), ("id", .str msgId),
      ("params", .arr [.obj [("resume", .str (args.headD ""))]])])
  else
    match args[0]?, args[1]? with
    | some u, some p =>
      some (.obj [("msg", .str "method"), ("method", .str "login"), ("id", .str msgId),
        ("params", .arr [.obj [
          ("user", .obj [("username", .str u)]),
          ("password", .obj [("digest", .str (sha256Hex p)), ("algorithm", .str "sha-256")])]])])
    | _, _ => none

/-- The Login response parser: the `id` field of the `result` field;
a missing field raises, modelled as `none`. -/
def Login.parse (response : Json) : Option Json :=
  (jGet response "result").bind (fun r => jGet r "id")

/-- The Login call up to its Dispatcher hand-off: allocates an id,
builds the message, and passes both to `call_method`.  When building
raises, nothing reaches the Dispatcher. -/
def Login.call (maxId : Nat) (args : List String) : Option (Nat × DispatcherCall) :=
  (Login.getRequestMsg (RealtimeRequest.getNewId maxId).2 args).map
    (fun m => ((RealtimeRequest.getNewId maxId).1, ⟨m, some (RealtimeRequest.getNewId maxId).2⟩))

/-- The element-wise part of the GetChannels parser: the `_id` and `t`
fields of each record, in order. -/
def GetChannels.parsePairs : List Json → Option (List (Json × Json))
  | [] => some []
  | r :: rs =>
    (jGet r "_id").bind (fun i => (jGet r "t").bind (fun t =>
      (GetChannels.parsePairs rs).map (fun rest => (i, t) :: rest)))

/-- The GetChannels response parser: pairs of channel id and channel
type from the `result` list, preserving order. -/
def GetChannels.parse (response : Json) : Option (List (Json × Json)) :=
  (jGet response "result").bind (fun res => (pyIterate res).bind GetChannels.parsePairs)

/-- The id-seed string for an outgoing chat message: the correlation id
and the formatted current timestamp joined by a colon. -/
def SendMessage.idSeed (msgId ts : String) : String := msgId ++ ":" ++ ts

/-- The generated identity field of an outgoing chat message: the first
12 hex characters of the MD5 digest of the id-seed. -/
def SendMessage.genId (msgId ts : String) : String :=
  pyTake (md5Hex (SendMessage.idSeed msgId ts)) 12

/-- The three base fields of the SendMessage parameter object. -/
def SendMessage.baseParams (msgId channelId msgText ts : String) : List (String × Json) :=
  [("_id", .str (SendMessage.genId msgId ts)), ("rid", .str channelId), ("msg", .str msgText)]

/-- The SendMessage parameter object after merging the caller-supplied
extra fields one by one with dict assignment. -/
def SendMessage.mergedParams (msgId channelId msgText ts : String)
    (kwargs : List (String × Json)) : List (String × Json) :=
  kwargs.foldl (fun d kv => dictSet d kv.1 kv.2) (SendMessage.baseParams msgId channelId msgText ts)

/-- The SendMessage request message builder. -/
def SendMessage.getRequestMsg (msgId channelId msgText ts : String)
    (kwargs : List (String × Json)) : Json :=
  .obj [("msg", .str "method"), ("method", .str "sendMessage"), ("id", .str msgId),
    ("params", .arr [.obj (SendMessage.mergedParams msgId channelId msgText ts kwargs)])]

/-- The SendTypingEvent request message builder. -/
def SendTypingEvent.getRequestMsg (msgId channelId username : String) (isTyping : Bool) : Json :=
  .obj [("msg", .str "method"), ("method", .str "stream-notify-room"), ("id", .str msgId),
    ("params", .arr [.str (channelId ++ "/typing"), .str username, .bool isTyping])]

/-- The SendTypingEvent call up to its Dispatcher hand-off: allocates an
id, builds the message, and passes both to `call_method`. -/
def SendTypingEvent.call (maxId : Nat) (channelId username : String)
    (isTyping : Bool) : Nat × DispatcherCall :=
  ((RealtimeRequest.getNewId maxId).1,
   ⟨SendTypingEvent.getRequestMsg (RealtimeRequest.getNewId maxId).2 channelId username isTyping,
    some (RealtimeRequest.getNewId maxId).2⟩)

/-- The SubscribeToChannelMessages event adapter: the first element of
`fields.args` is the message body; the callback receives the channel
id, the sender id, the message id, and the full body.  The outer
`none` models a raised access error, `some` the one callback
invocation with its four positional arguments. -/
def SubscribeToChannelMessages.wrap (msg : Json) : Option (Json × Json × Json × Json) :=
  (jGet msg "fields").bind (fun fs => (jGet fs "args").bind (fun ags =>
    (jIdx ags 0).bind (fun message =>
      (jGet message "_id").bind (fun msgId => (jGet message "rid").bind (fun channelId =>
        (jGet message "u").bind (fun u => (jGet u "_id").bind (fun senderId =>
          some (channelId, senderId, msgId, message))))))))

/-- The SubscribeToChannelChanges event adapter: a first argument equal
to the literal string removed is swallowed (`some none`, no callback);
otherwise the callback receives the `_id` and `t` fields of the second
argument (`some (some pair)`); the outer `none` models a raised access
error. -/
def SubscribeToChannelChanges.wrap (msg : Json) : Option (Option (Json × Json)) :=
  (jGet msg "fields").bind (fun fs => (jGet fs "args").bind (fun payload =>
    (jIdx payload 0).bind (fun p0 =>
      if isStrEq p0 "removed" then some none
      else (jIdx payload 1).bind (fun p1 =>
        (jGet p1 "_id").bind (fun channelId => (jGet p1 "t").bind (fun channelType =>
          some (some (channelId, channelType))))))))

/-! ### Decimal formatting lemmas -/

theorem toNat_digitChar10 (d : Nat) : (digitChar10 d).toNat = 48 + d % 10 := by
  have h : d % 10 < 10 := Nat.mod_lt _ (by omega)
  unfold digitChar10
  interval_cases hx : (d % 10) <;> rfl

theorem foldl_digits (n : Nat) : ∀ acc : Nat,
    ((natDigits n).map digitChar10).foldl (fun a c => a * 10 + (c.toNat - 48)) acc =
      acc * 10 ^ (natDigits n).length + n := by
  induction n using Nat.strong_induction_on with
  | _ n ih =>
    intro acc
    rw [natDigits]
    split
    · next h =>
      simp [List.foldl, toNat_digitChar10]
      omega
    · next h =>
      rw [List.map_append, List.foldl_append]
      rw [ih (n / 10) (Nat.div_lt_self (by omega) (by omega))]
      simp [List.foldl, toNat_digitChar10, List.length_append]
      have key : acc * 10 ^ ((natDigits (n / 10)).length + 1) =
          acc * 10 ^ (natDigits (n / 10)).length * 10 := by ring
      rw [key]
      have := Nat.div_add_mod n 10
      set Q := acc * 10 ^ (natDigits (n / 10)).length
      omega

theorem parse_pyIntStr (n : Nat) : parseDigitChars (pyIntStr n).data = n := by
  show ((natDigits n).map digitChar10).foldl _ 0 = n
  rw [foldl_digits n 0]
  omega

theorem pyIntStr_injective : Function.Injective pyIntStr := by
  intro a b h
  have := congrArg (fun s => parseDigitChars s.data) h
  simpa [parse_pyIntStr] using this

theorem allocSeq_eq (N : Nat) : ∀ m : Nat,
    RealtimeRequest.allocSeq m N = (List.range N).map (fun i => pyIntStr (m + 1 + i)) := by
  induction N with
  | zero => intro m; rfl
  | succ n ih =>
    intro m
    rw [List.range_succ_eq_map]
    simp only [RealtimeRequest.allocSeq, RealtimeRequest.getNewId, List.map_cons, List.map_map]
    refine congrArg₂ _ (by norm_num) ?_
    rw [ih (m + 1)]
    refine congrArg₂ _ ?_ rfl
    funext i
    simp only [Function.comp]
    congr 1
    omega

theorem alloc_nodup (N m : Nat) : (RealtimeRequest.allocSeq m N).Nodup := by
  rw [allocSeq_eq]
  refine List.Nodup.map ?_ (List.nodup_range N)
  intro a b h
  have := pyIntStr_injective h
  omega

/-- Claim C1: any N consecutive invocations of the correlation id
allocator return the decimal string representations of the N strictly
increasing consecutive integers following the current counter value;
from the process-initial counter they are exactly 1, 2, ..., N, so the
values start at 1, are pairwise distinct however calls interleave, and
no value is ever returned twice over the process lifetime. -/
theorem allocator_returns_increasing_unique_ids (N : Nat) :
    (∀ m, RealtimeRequest.allocSeq m N = (List.range N).map (fun i => pyIntStr (m + 1 + i))) ∧
    RealtimeRequest.allocSeq 0 N = (List.range N).map (fun i => pyIntStr (i + 1)) ∧
    (∀ m, (RealtimeRequest.allocSeq m N).Nodup) := by
  refine ⟨allocSeq_eq N, ?_, fun m => alloc_nodup N m⟩
  rw [allocSeq_eq N 0]
  refine congrArg₂ _ ?_ rfl
  funext i
  congr 1
  omega

theorem md5Bytes_length (bs : List Nat) : (md5Bytes bs).length = 16 := rfl

theorem sha256Bytes_length (bs : List Nat) : (sha256Bytes bs).length = 32 := rfl

theorem flatten_byteHex_length (bs : List Nat) :
    ((bs.map byteHex).flatten).length = 2 * bs.length := by
  induction bs with
  | nil => rfl
  | cons b t ih =>
    simp only [List.map_cons, List.flatten_cons, List.length_append, List.length_cons, ih,
      byteHex]
    simp
    omega

theorem bytesToHexStr_length (bs : List Nat) : (bytesToHexStr bs).length = 2 * bs.length := by
  show ((bs.map byteHex).flatten).length = 2 * bs.length
  exact flatten_byteHex_length bs

theorem md5Hex_length (s : String) : (md5Hex s).length = 32 := by
  show (bytesToHexStr (md5Bytes (strBytes s))).length = 32
  rw [bytesToHexStr_length, md5Bytes_length]

theorem sha256Hex_length (s : String) : (sha256Hex s).length = 64 := by
  show (bytesToHexStr (sha256Bytes (strBytes s))).length = 64
  rw [bytesToHexStr_length, sha256Bytes_length]

theorem hexDigit_mem (n : Nat) : hexDigit n ∈ hexChars := by
  have h : n % 16 < 16 := Nat.mod_lt _ (by omega)
  unfold hexDigit
  interval_cases hx : (n % 16) <;> decide

theorem bytesToHexStr_chars (bs : List Nat) : ∀ c ∈ (bytesToHexStr bs).data, c ∈ hexChars := by
  intro c hc
  show c ∈ hexChars
  simp only [bytesToHexStr] at hc
  change c ∈ ((bs.map byteHex).flatten) at hc
  rw [List.mem_flatten] at hc
  obtain ⟨l, hl, hcl⟩ := hc
  rw [List.mem_map] at hl
  obtain ⟨b, _, rfl⟩ := hl
  simp only [byteHex, List.mem_cons] at hcl
  rcases hcl with rfl | rfl | h
  · exact hexDigit_mem _
  · exact hexDigit_mem _
  · simp at h

theorem pyTake_length (s : String) (n : Nat) : (pyTake s n).length = min n s.length := by
  show (s.data.take n).length = min n s.length
  rw [List.length_take]
  rfl

theorem pyTake_chars (s : String) (n : Nat) : ∀ c ∈ (pyTake s n).data, c ∈ s.data := by
  intro c hc
  simp only [pyTake] at hc
  exact List.mem_of_mem_take hc

/-! ### Dict update lemmas -/

theorem dictLookup_dictSet (d : List (String × Json)) (k : String) (v : Json) (q : String) :
    dictLookup (dictSet d k v) q = if k = q then some v else dictLookup d q := by
  induction d with
  | nil =>
    show dictLookup [(k, v)] q = _
    simp only [dictLookup]
  | cons kv t ih =>
    by_cases h1 : kv.1 = k
    · simp only [dictSet, if_pos h1, dictLookup]
      by_cases h2 : k = q
      · simp [h2]
      · rw [if_neg h2, if_neg h2, if_neg (fun hh : kv.1 = q => h2 (by rw [← hh, h1]))]
    · simp only [dictSet, if_neg h1, dictLookup, ih]
      by_cases h2 : kv.1 = q
      · have hkq : ¬ (k = q) := fun hh => h1 (by rw [h2, hh])
        simp [h2, hkq]
      · simp [h2]

theorem dictLookup_merge_not_mem (kwargs : List (String × Json)) (d : List (String × Json))
    (k : String) (h : k ∉ kwargs.map Prod.fst) :
    dictLookup (kwargs.foldl (fun d kv => dictSet d kv.1 kv.2) d) k = dictLookup d k := by
  induction kwargs generalizing d with
  | nil => rfl
  | cons kv t ih =>
    simp only [List.map_cons, List.mem_cons] at h
    push_neg at h
    simp only [List.foldl_cons]
    rw [ih (dictSet d kv.1 kv.2) h.2, dictLookup_dictSet]
    rw [if_neg (fun hh => h.1 hh.symm)]

theorem dictLookup_merge_mem (kwargs : List (String × Json)) (d : List (String × Json))
    (hnd : (kwargs.map Prod.fst).Nodup) (k : String) (v : Json)
    (h : dictLookup kwargs k = some v) :
    dictLookup (kwargs.foldl (fun d kv => dictSet d kv.1 kv.2) d) k = some v := by
  induction kwargs generalizing d with
  | nil => simp [dictLookup] at h
  | cons kv t ih =>
    simp only [List.map_cons, List.nodup_cons] at hnd
    simp only [dictLookup] at h
    simp only [List.foldl_cons]
    by_cases h1 : kv.1 = k
    · rw [if_pos h1] at h
      obtain rfl := Option.some.inj h
      have hk : k ∉ t.map Prod.fst := by rw [← h1]; exact hnd.1
      rw [dictLookup_merge_not_mem t _ k hk, dictLookup_dictSet, if_pos h1]
    · rw [if_neg h1] at h
      exact ih _ hnd.2 h

/-! ### Claim C5 -/

set_option maxRecDepth 1000000 in
/-- Claim C5 counterexample: two distinct formatted timestamps for the
same correlation id whose generated message identities coincide, since
only 48 bits of the MD5 digest are kept. -/
theorem sendMessage_genId_collision :
    ("1760227205.844919" : String) ≠ "1760227209.378068" ∧
    SendMessage.genId "1" "1760227205.844919" = SendMessage.genId "1" "1760227209.378068" := by
  constructor
  · decide
  · decide

/-- Claim C5 (amended): the identity field SendMessage generates is the
first 12 hexadecimal characters of the MD5 digest of the correlation id
and the formatted current timestamp joined by a colon; it has exactly
12 characters, all hexadecimal, it is deterministic in the pair of
inputs, and it is the value of the `_id` field of the params object of
the outgoing message whenever no extra field shadows `_id`.  Distinct
timestamps may collide, as only 48 digest bits are kept. -/
theorem sendMessage_genId_spec (msgId channelId msgText ts : String)
    (kwargs : List (String × Json)) (hid : "_id" ∉ kwargs.map Prod.fst) :
    SendMessage.genId msgId ts = pyTake (md5Hex (msgId ++ ":" ++ ts)) 12 ∧
    (SendMessage.genId msgId ts).length = 12 ∧
    (∀ c ∈ (SendMessage.genId msgId ts).data, c ∈ hexChars) ∧
    (∀ id2 ts2, msgId = id2 → ts = ts2 →
      SendMessage.genId msgId ts = SendMessage.genId id2 ts2) ∧
    ((jGet (SendMessage.getRequestMsg msgId channelId msgText ts kwargs) "params").bind
        (fun p => (jIdx p 0).bind (fun p0 => jGet p0 "_id"))) =
      some (.str (SendMessage.genId msgId ts)) := by
  refine ⟨rfl, ?_, ?_, ?_, ?_⟩
  · show (pyTake (md5Hex (SendMessage.idSeed msgId ts)) 12).length = 12
    rw [pyTake_length, md5Hex_length]
    decide
  · intro c hc
    have h1 : c ∈ (md5Hex (SendMessage.idSeed msgId ts)).data := pyTake_chars _ _ c hc
    exact bytesToHexStr_chars _ c h1
  · intro id2 ts2 h1 h2
    rw [h1, h2]
  · show (dictLookup (SendMessage.mergedParams msgId channelId msgText ts kwargs) "_id") =
      some (.str (SendMessage.genId msgId ts))
    unfold SendMessage.mergedParams
    rw [dictLookup_merge_not_mem _ _ _ hid]
    rfl

/-- Claim C5 witness: the amended statement at concrete inputs. -/
theorem sendMessage_genId_spec_witness :
    SendMessage.genId "7" "1700000000.5" = pyTake (md5Hex ("7" ++ ":" ++ "1700000000.5")) 12 ∧
    (SendMessage.genId "7" "1700000000.5").length = 12 ∧
    (∀ c ∈ (SendMessage.genId "7" "1700000000.5").data, c ∈ hexChars) ∧
    (∀ id2 ts2, "7" = id2 → "1700000000.5" = ts2 →
      SendMessage.genId "7" "1700000000.5" = SendMessage.genId id2 ts2) ∧
    ((jGet (SendMessage.getRequestMsg "7" "ch1" "hello" "1700000000.5" [("tmid", .str "t9")])
        "params").bind (fun p => (jIdx p 0).bind (fun p0 => jGet p0 "_id"))) =
      some (.str (SendMessage.genId "7" "1700000000.5")) :=
  sendMessage_genId_spec "7" "ch1" "hello" "1700000000.5" [("tmid", .str "t9")] (by simp)

/-! ### Claim C6 -/

theorem dictLookup_eq_none_of_not_mem (d : List (String × Json)) (k : String)
    (h : k ∉ d.map Prod.fst) : dictLookup d k = none := by
  induction d with
  | nil => rfl
  | cons kv t ih =>
    simp only [List.map_cons, List.mem_cons] at h
    push_neg at h
    simp only [dictLookup]
    rw [if_neg (fun hh => h.1 hh.symm)]
    exact ih h.2

/-- Claim C6: every caller-supplied extra field is merged verbatim into
the single params object of the outgoing message, overwriting a base
field with the same key (last write wins); base fields whose keys no
extra field carries are unchanged. -/
theorem sendMessage_extra_fields_merge (msgId channelId msgText ts : String)
    (kwargs : List (String × Json)) (hnd : (kwargs.map Prod.fst).Nodup) :
    (∀ k v, dictLookup kwargs k = some v →
      dictLookup (SendMessage.mergedParams msgId channelId msgText ts kwargs) k = some v) ∧
    (∀ k, k ∉ kwargs.map Prod.fst →
      dictLookup (SendMessage.mergedParams msgId channelId msgText ts kwargs) k =
        dictLookup (SendMessage.baseParams msgId channelId msgText ts) k) ∧
    jGet (SendMessage.getRequestMsg msgId channelId msgText ts kwargs) "params" =
      some (.arr [.obj (SendMessage.mergedParams msgId channelId msgText ts kwargs)]) := by
  refine ⟨?_, ?_, rfl⟩
  · intro k v h
    exact dictLookup_merge_mem kwargs _ hnd k v h
  · intro k h
    exact dictLookup_merge_not_mem kwargs _ k h

/-- Claim C6 witness: a colliding key overwrites the base text, a fresh
key is appended, and the untouched base fields survive. -/
theorem sendMessage_extra_fields_merge_witness :
    (∀ k v, dictLookup [("msg", .str "override"), ("tmid", .num 5)] k = some v →
      dictLookup (SendMessage.mergedParams "3" "ch" "hi" "1.5"
        [("msg", .str "override"), ("tmid", .num 5)]) k = some v) ∧
    (∀ k, k ∉ ([("msg", Json.str "override"), ("tmid", Json.num 5)].map Prod.fst) →
      dictLookup (SendMessage.mergedParams "3" "ch" "hi" "1.5"
        [("msg", .str "override"), ("tmid", .num 5)]) k =
        dictLookup (SendMessage.baseParams "3" "ch" "hi" "1.5") k) ∧
    jGet (SendMessage.getRequestMsg "3" "ch" "hi" "1.5"
        [("msg", .str "override"), ("tmid", .num 5)]) "params" =
      some (.arr [.obj (SendMessage.mergedParams "3" "ch" "hi" "1.5"
        [("msg", .str "override"), ("tmid", .num 5)])]) :=
  sendMessage_extra_fields_merge "3" "ch" "hi" "1.5"
    [("msg", .str "override"), ("tmid", .num 5)] (by simp)

/-! ### Claim C2 -/

/-- Claim C2 counterexample: with username equal to password, the
plaintext password string does occur in the built login message (as the
username field), so it is not true that for every username and password
the plaintext appears nowhere in the message. -/
theorem login_plaintext_in_message_cex :
    ("hunter2" : String) ∈ jsonStringsOpt (Login.getRequestMsg "1" ["hunter2", "hunter2"]) := by
  show ("hunter2" : String) ∈ jsonStrings (.obj [("msg", .str "method"), ("method", .str "login"),
    ("id", .str "1"),
    ("params", .arr [.obj [
      ("user", .obj [("username", .str "hunter2")]),
      ("password", .obj [("digest", .str (sha256Hex "hunter2")),
                         ("algorithm", .str "sha-256")])]])])
  simp [jsonStrings, jsonStringsObj, jsonStringsArr]

/-- Claim C2 (amended): the username/password login message carries the
password only as its SHA-256 hex digest, in a password object holding
exactly the digest and the algorithm tag sha-256, alongside the
username; the plaintext appears nowhere in the message provided it does
not coincide with the username, the correlation id, its own digest, or
one of the fixed key and tag literals of the message. -/
theorem login_password_digest_spec (msgId u p : String)
    (hpu : p ≠ u) (hpid : p ≠ msgId) (hpd : p ≠ sha256Hex p)
    (hlit : p ∉ (["msg", "method", "login", "id", "params", "user", "username",
                  "password", "digest", "algorithm", "sha-256"] : List String)) :
    ((Login.getRequestMsg msgId [u, p]).bind (fun m => jGet m "params")).bind
        (fun pa => (jIdx pa 0).bind (fun p0 => (jGet p0 "password").bind
          (fun pw => jGet pw "digest"))) = some (.str (sha256Hex p)) ∧
    ((Login.getRequestMsg msgId [u, p]).bind (fun m => jGet m "params")).bind
        (fun pa => (jIdx pa 0).bind (fun p0 => (jGet p0 "password").bind
          (fun pw => jGet pw "algorithm"))) = some (.str "sha-256") ∧
    ((Login.getRequestMsg msgId [u, p]).bind (fun m => jGet m "params")).bind
        (fun pa => (jIdx pa 0).bind (fun p0 => (jGet p0 "user").bind
          (fun us => jGet us "username"))) = some (.str u) ∧
    ((Login.getRequestMsg msgId [u, p]).bind (fun m => jGet m "params")).bind
        (fun pa => (jIdx pa 0).bind (fun p0 => jGet p0 "password")) =
      some (.obj [("digest", .str (sha256Hex p)), ("algorithm", .str "sha-256")]) ∧
    p ∉ jsonStringsOpt (Login.getRequestMsg msgId [u, p]) := by
  refine ⟨rfl, rfl, rfl, rfl, ?_⟩
  show p ∉ jsonStrings (.obj [("msg", .str "method"), ("method", .str "login"),
    ("id", .str msgId),
    ("params", .arr [.obj [
      ("user", .obj [("username", .str u)]),
      ("password", .obj [("digest", .str (sha256Hex p)),
                         ("algorithm", .str "sha-256")])]])])
  simp only [List.mem_cons, List.mem_singleton] at hlit
  push_neg at hlit
  simp [jsonStrings, jsonStringsObj, jsonStringsArr]
  tauto

/-- Claim C2 witness: the amended statement at concrete inputs, the
digest-difference hypothesis discharged through the digest length. -/
theorem login_password_digest_spec_witness :
    ((Login.getRequestMsg "1" ["alice", "hunter2"]).bind (fun m => jGet m "params")).bind
        (fun pa => (jIdx pa 0).bind (fun p0 => (jGet p0 "password").bind
          (fun pw => jGet pw "digest"))) = some (.str (sha256Hex "hunter2")) ∧
    ((Login.getRequestMsg "1" ["alice", "hunter2"]).bind (fun m => jGet m "params")).bind
        (fun pa => (jIdx pa 0).bind (fun p0 => (jGet p0 "password").bind
          (fun pw => jGet pw "algorithm"))) = some (.str "sha-256") ∧
    ((Login.getRequestMsg "1" ["alice", "hunter2"]).bind (fun m => jGet m "params")).bind
        (fun pa => (jIdx pa 0).bind (fun p0 => (jGet p0 "user").bind
          (fun us => jGet us "username"))) = some (.str "alice") ∧
    ((Login.getRequestMsg "1" ["alice", "hunter2"]).bind (fun m => jGet m "params")).bind
        (fun pa => (jIdx pa 0).bind (fun p0 => jGet p0 "password")) =
      some (.obj [("digest", .str (sha256Hex "hunter2")), ("algorithm", .str "sha-256")]) ∧
    ("hunter2" : String) ∉ jsonStringsOpt (Login.getRequestMsg "1" ["alice", "hunter2"]) := by
  refine login_password_digest_spec "1" "alice" "hunter2" (by decide) (by decide) ?_ (by decide)
  intro h
  have hlen := congrArg String.length h
  rw [sha256Hex_length] at hlen
  exact absurd hlen (by decide)

/-! ### Claim C3 -/

/-- Claim C3: the Login parser returns exactly the value of the
result.id field of the raw response, and raises (none) exactly when
that field is absent, whether because result is missing or not a dict,
or because id is missing from it. -/
theorem login_parse_result_id (response : Json) :
    (∀ res v, jGet response "result" = some res → jGet res "id" = some v →
      Login.parse response = some v) ∧
    (∀ res, jGet response "result" = some res → jGet res "id" = none →
      Login.parse response = none) ∧
    (jGet response "result" = none → Login.parse response = none) := by
  refine ⟨?_, ?_, ?_⟩ <;> intros <;> simp [Login.parse, *]

/-- Claim C3 witness: a well-formed response yields the id value, and a
response whose result lacks the id field yields an error. -/
theorem login_parse_result_id_witness :
    jGet (.obj [("result", .obj [("id", .str "uid7")])]) "result" =
      some (.obj [("id", .str "uid7")]) ∧
    jGet (Json.obj [("id", .str "uid7")]) "id" = some (.str "uid7") ∧
    Login.parse (.obj [("result", .obj [("id", .str "uid7")])]) = some (.str "uid7") ∧
    Login.parse (.obj [("result", .obj [("token", .str "t")])]) = none := by
  refine ⟨rfl, rfl, ?_, ?_⟩
  · exact (login_parse_result_id _).1 (.obj [("id", .str "uid7")]) (.str "uid7") rfl rfl
  · exact (login_parse_result_id _).2.1 (.obj [("token", .str "t")]) rfl rfl

/-! ### Claim C4 -/

theorem parsePairs_sound (rs : List Json)
    (h : ∀ r ∈ rs, (jGet r "_id").isSome ∧ (jGet r "t").isSome) :
    GetChannels.parsePairs rs =
      some (rs.map (fun r => ((jGet r "_id").getD .null, (jGet r "t").getD .null))) := by
  induction rs with
  | nil => rfl
  | cons r t ih =>
    obtain ⟨h1, h2⟩ := h r (List.mem_cons_self r t)
    obtain ⟨i, hi⟩ := Option.isSome_iff_exists.mp h1
    obtain ⟨tt, ht⟩ := Option.isSome_iff_exists.mp h2
    rw [GetChannels.parsePairs, hi, ht, ih (fun x hx => h x (List.mem_cons_of_mem _ hx))]
    simp [hi, ht]

/-- Claim C4: for a response whose result field is a list of records
each carrying the fields of a channel, the GetChannels parser yields
the list of id and type pairs in exactly the order of the response
list. -/
theorem getChannels_parse_ordered (response : Json) (rs : List Json)
    (hres : jGet response "result" = some (.arr rs))
    (hshape : ∀ r ∈ rs, (jGet r "_id").isSome ∧ (jGet r "t").isSome) :
    GetChannels.parse response =
      some (rs.map (fun r => ((jGet r "_id").getD .null, (jGet r "t").getD .null))) := by
  rw [GetChannels.parse, hres]
  show (pyIterate (.arr rs)).bind GetChannels.parsePairs = _
  rw [pyIterate]
  show GetChannels.parsePairs rs = _
  exact parsePairs_sound rs hshape

/-- Claim C4 witness: the two-channel example response parses to its
two pairs in server order. -/
theorem getChannels_parse_ordered_witness :
    GetChannels.parse (.obj [("result", .arr
        [.obj [("_id", .str "a"), ("t", .str "c")],
         .obj [("_id", .str "b"), ("t", .str "p")]])]) =
      some [(.str "a", .str "c"), (.str "b", .str "p")] := by
  have h := getChannels_parse_ordered
    (.obj [("result", .arr
        [.obj [("_id", .str "a"), ("t", .str "c")],
         .obj [("_id", .str "b"), ("t", .str "p")]])])
    [.obj [("_id", .str "a"), ("t", .str "c")], .obj [("_id", .str "b"), ("t", .str "p")]]
    rfl (by intro r hr; fin_cases hr <;> exact ⟨rfl, rfl⟩)
  simpa using h

/-! ### Claim C7 -/

/-- Claim C7 counterexample: SendTypingEvent does pass its correlation
id to the Dispatcher call, so by the Dispatcher contract the call
awaits the reply rather than being fire-and-forget. -/
theorem sendTyping_passes_id_cex :
    (SendTypingEvent.call 0 "ch1" "alice" true).2.waitId ≠ none := by
  show some (pyIntStr 1) ≠ none
  simp

/-- Claim C7 (amended): SendTypingEvent sends a method message named
stream-notify-room whose params are exactly the typing topic, the
username and the typing flag in that order; however it hands its
correlation id to the Dispatcher call, so per the Dispatcher contract
it awaits the acknowledgement (which it discards unparsed) instead of
being fire-and-forget. -/
theorem sendTyping_params_and_awaits (maxId : Nat) (channelId username : String)
    (isTyping : Bool) :
    jGet (SendTypingEvent.call maxId channelId username isTyping).2.message "params" =
      some (.arr [.str (channelId ++ "/typing"), .str username, .bool isTyping]) ∧
    jGet (SendTypingEvent.call maxId channelId username isTyping).2.message "method" =
      some (.str "stream-notify-room") ∧
    jGet (SendTypingEvent.call maxId channelId username isTyping).2.message "msg" =
      some (.str "method") ∧
    jGet (SendTypingEvent.call maxId channelId username isTyping).2.message "id" =
      some (.str (pyIntStr (maxId + 1))) ∧
    (SendTypingEvent.call maxId channelId username isTyping).2.waitId =
      some (pyIntStr (maxId + 1)) :=
  ⟨rfl, rfl, rfl, rfl, rfl⟩

/-! ### Claim C8 -/

theorem isStrEq_false_iff (j : Json) (s : String) :
    isStrEq j s = false ↔ j ≠ .str s := by
  cases j <;> simp [isStrEq]

/-- Claim C8: the SubscribeToChannelChanges adapter swallows an event
whose first argument is the literal string removed, invoking no
callback; on any other first argument it invokes the callback exactly
once with the id and type fields of the second argument. -/
theorem channelChanges_adapter_spec (msg fs : Json) (payload : List Json) (a0 : Json)
    (hf : jGet msg "fields" = some fs) (ha : jGet fs "args" = some (.arr payload))
    (h0 : payload[0]? = some a0) :
    (a0 = .str "removed" → SubscribeToChannelChanges.wrap msg = some none) ∧
    (∀ a1 cid ct, a0 ≠ .str "removed" → payload[1]? = some a1 →
      jGet a1 "_id" = some cid → jGet a1 "t" = some ct →
      SubscribeToChannelChanges.wrap msg = some (some (cid, ct))) := by
  constructor
  · intro h
    subst h
    rw [SubscribeToChannelChanges.wrap, hf]
    show (jGet fs "args").bind _ = some none
    rw [ha]
    show (jIdx (.arr payload) 0).bind _ = some none
    rw [jIdx, h0]
    rfl
  · intro a1 cid ct hne h1 hcid hct
    rw [SubscribeToChannelChanges.wrap, hf]
    show (jGet fs "args").bind _ = some (some (cid, ct))
    rw [ha]
    show (jIdx (.arr payload) 0).bind _ = some (some (cid, ct))
    rw [jIdx, h0]
    show (if isStrEq a0 "removed" then some none else _) = some (some (cid, ct))
    rw [if_neg (by rw [Bool.not_eq_true, isStrEq_false_iff]; exact hne)]
    show (jIdx (.arr payload) 1).bind _ = some (some (cid, ct))
    rw [jIdx, h1]
    show (jGet a1 "_id").bind _ = some (some (cid, ct))
    rw [hcid]
    show (jGet a1 "t").bind _ = some (some (cid, ct))
    rw [hct]
    rfl

/-- Claim C8 witness: a removed event produces no invocation; an added
event invokes the callback with the id and type of the new channel. -/
theorem channelChanges_adapter_spec_witness :
    SubscribeToChannelChanges.wrap (.obj [("fields", .obj [("args",
        .arr [.str "removed", .obj [("_id", .str "z"), ("t", .str "c")]])])]) = some none ∧
    SubscribeToChannelChanges.wrap (.obj [("fields", .obj [("args",
        .arr [.str "added", .obj [("_id", .str "x"), ("t", .str "p")]])])]) =
      some (some (.str "x", .str "p")) := by
  constructor
  · exact (channelChanges_adapter_spec
      (.obj [("fields", .obj [("args",
        .arr [.str "removed", .obj [("_id", .str "z"), ("t", .str "c")]])])])
      (.obj [("args", .arr [.str "removed", .obj [("_id", .str "z"), ("t", .str "c")]])])
      [.str "removed", .obj [("_id", .str "z"), ("t", .str "c")]]
      (.str "removed") rfl rfl rfl).1 rfl
  · exact (channelChanges_adapter_spec
      (.obj [("fields", .obj [("args",
        .arr [.str "added", .obj [("_id", .str "x"), ("t", .str "p")]])])])
      (.obj [("args", .arr [.str "added", .obj [("_id", .str "x"), ("t", .str "p")]])])
      [.str "added", .obj [("_id", .str "x"), ("t", .str "p")]]
      (.str "added") rfl rfl rfl).2
      (.obj [("_id", .str "x"), ("t", .str "p")]) (.str "x") (.str "p")
      (by simp) rfl rfl rfl

/-! ### Claim C9 -/

/-- Claim C9: the SubscribeToChannelMessages adapter takes the first
element of fields.args as the message body and invokes the callback
exactly once with the channel id, the sender id, the message id, and
the full body, in that order. -/
theorem channelMessages_adapter_spec (msg fs m u mid rid sid : Json) (ags : List Json)
    (hf : jGet msg "fields" = some fs) (ha : jGet fs "args" = some (.arr ags))
    (h0 : ags[0]? = some m)
    (hmid : jGet m "_id" = some mid) (hrid : jGet m "rid" = some rid)
    (hu : jGet m "u" = some u) (hsid : jGet u "_id" = some sid) :
    SubscribeToChannelMessages.wrap msg = some (rid, sid, mid, m) := by
  rw [SubscribeToChannelMessages.wrap, hf]
  show (jGet fs "args").bind _ = _
  rw [ha]
  show (jIdx (.arr ags) 0).bind _ = _
  rw [jIdx, h0]
  show (jGet m "_id").bind _ = _
  rw [hmid]
  show (jGet m "rid").bind _ = _
  rw [hrid]
  show (jGet m "u").bind _ = _
  rw [hu]
  show (jGet u "_id").bind _ = _
  rw [hsid]
  rfl

/-- Claim C9 witness: the example event invokes the callback with the
channel, sender, and message ids and the raw body. -/
theorem channelMessages_adapter_spec_witness :
    SubscribeToChannelMessages.wrap (.obj [("fields", .obj [("args",
        .arr [.obj [("_id", .str "m1"), ("rid", .str "r1"),
                    ("u", .obj [("_id", .str "u1")])]])])]) =
      some (.str "r1", .str "u1", .str "m1",
        .obj [("_id", .str "m1"), ("rid", .str "r1"), ("u", .obj [("_id", .str "u1")])]) :=
  channelMessages_adapter_spec _ _
    (.obj [("_id", .str "m1"), ("rid", .str "r1"), ("u", .obj [("_id", .str "u1")])])
    (.obj [("_id", .str "u1")]) (.str "m1") (.str "r1") (.str "u1") _
    rfl rfl rfl rfl rfl rfl rfl

/-! ### Claim C10 -/

/-- Claim C10: the Login builder treats every argument list whose
length differs from one as the username/password form: with two or more
arguments it builds the digest form from the first two and ignores the
rest, and with no arguments the build raises on the missing subscript,
so nothing is ever handed to the Dispatcher. -/
theorem login_args_dispatch (maxId : Nat) (msgId u p : String) (rest : List String) :
    Login.getRequestMsg msgId (u :: p :: rest) = Login.getRequestMsg msgId [u, p] ∧
    ((Login.getRequestMsg msgId (u :: p :: rest)).bind (fun m => jGet m "params")).bind
        (fun pa => (jIdx pa 0).bind (fun p0 => (jGet p0 "user").bind
          (fun us => jGet us "username"))) = some (.str u) ∧
    ((Login.getRequestMsg msgId (u :: p :: rest)).bind (fun m => jGet m "params")).bind
        (fun pa => (jIdx pa 0).bind (fun p0 => (jGet p0 "password").bind
          (fun pw => jGet pw "digest"))) = some (.str (sha256Hex p)) ∧
    Login.getRequestMsg msgId [] = none ∧
    Login.call maxId [] = none := by
  have hbuild : Login.getRequestMsg msgId (u :: p :: rest) =
      some (.obj [("msg", .str "method"), ("method", .str "login"), ("id", .str msgId),
        ("params", .arr [.obj [
          ("user", .obj [("username", .str u)]),
          ("password", .obj [("digest", .str (sha256Hex p)),
                             ("algorithm", .str "sha-256")])]])]) := by
    simp [Login.getRequestMsg]
  refine ⟨?_, ?_, ?_, rfl, rfl⟩
  · rw [hbuild]
    rfl
  · rw [hbuild]
    rfl
  · rw [hbuild]
    rfl
